import Mathlib

/-
Verification development for the cluster health and replication topology
evaluation engine of replication-manager.

Shallow embedding of:
  - the aggregate predicate layer over Cluster (IsProvisioned, HasAllDbUp,
    HasRequestDBRestart, HasRequestDBRollingRestart, HasRequestDBRollingReprov,
    IsInIgnoredHosts, IsInCaptureMode);
  - the replication topology resolver over ServerMonitor (GetSlaveStatus,
    GetReplicationDelay, GetSibling);
  - the resilient connection manager (GetNewDBConn);
  - the Prometheus metric renderer (GetPrometheusMetrics).

Go slices distinguish nil from empty: a nil slice field is embedded as
Option with none for nil and some for a present slice.  Per-node methods
that read process state not present in the sources (cookie files, the
running state, capture mode) are embedded as stored boolean fields, as the
spec describes them: sticky per-node flags read by the aggregate layer.
-/

/-- Models Go strings.Split with a single-character separator, processing
the character list from the right; splitting the empty string yields a
single empty field, as in Go. -/
def goSplitAux (sep : Char) : List Char → List (List Char)
  | [] => [[]]
  | c :: rest =>
    let r := goSplitAux sep rest
    if c = sep then [] :: r
    else
      match r with
      | [] => [[c]]
      | h :: t => (c :: h) :: t

/-- Go strings.Split(s, sep) for a one-character separator sep. -/
def goSplit (s : String) (sep : Char) : List String :=
  (goSplitAux sep s.toList).map (fun f => String.mk f)

/-- Recognized provisioning orchestrator value; the comparison target of
IsProvisioned.  The constant lives in the external config package; its
exact text is irrelevant to the theorems below, which only compare
against this name. -/
def ConstOrchestratorOnPremise : String := "onpremise"

/-- State constant for a failed node (value owned by the external state
machine; only equality against it matters here). -/
def stateFailed : String := "Failed"

/-- State constant for a suspect node. -/
def stateSuspect : String := "Suspect"

/-- Nullable 64-bit integer as produced by the database driver: a validity
flag plus the stored value. -/
structure NullInt64 where
  valid : Bool
  int64 : Int
deriving DecidableEq

/-- One replication channel status record as reported by a node
(dbhelper.SlaveStatus, restricted to the fields the resolver reads).
connectionName embeds ConnectionName.String. -/
structure SlaveStatus where
  connectionName : String
  masterHost : String
  masterServerID : Nat
  secondsBehindMaster : NullInt64
deriving DecidableEq

/-- One monitored database node (ServerMonitor), restricted to the fields
the embedded functions read.  The cookie predicates HasProvisionCookie,
HasRestartCookie, HasReprovCookie and the health reads IsRunning and
InCaptureMode are embedded as stored flags. -/
structure ServerMonitor where
  url : String
  name : String
  state : String
  serverID : Nat
  replicationSourceName : String
  replications : Option (List SlaveStatus)
  hasProvisionCookie : Bool
  hasRestartCookie : Bool
  hasReprovCookie : Bool
  isRunning : Bool
  inCaptureMode : Bool
deriving DecidableEq

/-- One proxy, restricted to the cookie and running flags IsProvisioned
reads. -/
structure Proxy where
  hasProvisionCookie : Bool
  hasRestartCookie : Bool
  hasReprovCookie : Bool
  isRunning : Bool
deriving DecidableEq

/-- Cluster configuration fields read by the embedded predicates. -/
structure Config where
  provOrchestrator : String
  hosts : String
  ignoreSrv : String
  monitorCapture : Bool
deriving DecidableEq

/-- A cluster: servers is the Go slice cluster.Servers (none embeds a nil
slice), proxies the proxy list, conf the configuration. -/
structure Cluster where
  servers : Option (List ServerMonitor)
  proxies : List Proxy
  conf : Config
  isNotMonitoring : Bool
deriving DecidableEq

/-- Iterating a Go slice ranges over nothing when the slice is nil. -/
def Cluster.serversRange (c : Cluster) : List ServerMonitor :=
  c.servers.getD []

/-- Body of the server loop of IsProvisioned: a node lacking the provision
cookie passes when it is running (the cookie is then set as a side
effect, which does not change the boolean outcome), and fails the whole
predicate otherwise. -/
def isProvisionedDbLoop : List ServerMonitor → Bool
  | [] => true
  | db :: rest =>
    if !db.hasProvisionCookie then
      if db.isRunning then isProvisionedDbLoop rest else false
    else isProvisionedDbLoop rest

/-- Body of the proxy loop of IsProvisioned, same shape as the server
loop. -/
def isProvisionedProxyLoop : List Proxy → Bool
  | [] => true
  | px :: rest =>
    if !px.hasProvisionCookie then
      if px.isRunning then isProvisionedProxyLoop rest else false
    else isProvisionedProxyLoop rest

/-- Cluster.IsProvisioned: immediately true for the on-premise
orchestrator, immediately false when no hosts are configured, otherwise
the server loop then the proxy loop must both pass. -/
def Cluster.IsProvisioned (c : Cluster) : Bool :=
  if c.conf.provOrchestrator = ConstOrchestratorOnPremise then true
  else if c.conf.hosts = "" then false
  else if isProvisionedDbLoop c.serversRange then isProvisionedProxyLoop c.proxies
  else false

/-- Loop of IsInIgnoredHosts over the split entries. -/
def isInHostsLoop (server : ServerMonitor) : List String → Bool
  | [] => false
  | ihost :: rest =>
    if server.url = ihost ∨ server.name = ihost then true
    else isInHostsLoop server rest

/-- Cluster.IsInIgnoredHosts: the node URL or name is compared against
each entry of the comma-split ignore list. -/
def Cluster.IsInIgnoredHosts (c : Cluster) (server : ServerMonitor) : Bool :=
  isInHostsLoop server (goSplit c.conf.ignoreSrv ',')

/-- Loop of IsInCaptureMode over the servers. -/
def isInCaptureLoop : List ServerMonitor → Bool
  | [] => false
  | s :: rest => if s.inCaptureMode then true else isInCaptureLoop rest

/-- Cluster.IsInCaptureMode: guarded by monitor-capture being enabled,
monitoring being active, and the server count being zero or less (the
guard returns false when len(Servers) > 0), then a scan of the servers
for one in capture mode. -/
def Cluster.IsInCaptureMode (c : Cluster) : Bool :=
  if c.conf.monitorCapture = false ∨ c.isNotMonitoring = true ∨
      0 < c.serversRange.length then false
  else isInCaptureLoop c.serversRange

/-- Loop of HasAllDbUp: any failed or suspect node refutes. -/
def hasAllDbUpLoop : List ServerMonitor → Bool
  | [] => true
  | s :: rest =>
    if s.state = stateFailed ∨ s.state = stateSuspect then false
    else hasAllDbUpLoop rest

/-- Cluster.HasAllDbUp: false on a nil server slice, otherwise no node may
be failed or suspect. -/
def Cluster.HasAllDbUp (c : Cluster) : Bool :=
  match c.servers with
  | none => false
  | some l => hasAllDbUpLoop l

/-- Loop of HasRequestDBRestart: any node with the restart cookie
suffices. -/
def hasRestartAnyLoop : List ServerMonitor → Bool
  | [] => false
  | s :: rest => if s.hasRestartCookie then true else hasRestartAnyLoop rest

/-- Cluster.HasRequestDBRestart: false on a nil server slice, otherwise
true when some node carries the restart cookie. -/
def Cluster.HasRequestDBRestart (c : Cluster) : Bool :=
  match c.servers with
  | none => false
  | some l => hasRestartAnyLoop l

/-- Loop of HasRequestDBRollingRestart: a node without the restart cookie
refutes. -/
def hasRestartAllLoop : List ServerMonitor → Bool
  | [] => true
  | s :: rest => if !s.hasRestartCookie then false else hasRestartAllLoop rest

/-- Cluster.HasRequestDBRollingRestart: false on a nil server slice,
otherwise every node must carry the restart cookie. -/
def Cluster.HasRequestDBRollingRestart (c : Cluster) : Bool :=
  match c.servers with
  | none => false
  | some l => hasRestartAllLoop l

/-- Loop of HasRequestDBRollingReprov: a node without the reprovision
cookie refutes. -/
def hasReprovAllLoop : List ServerMonitor → Bool
  | [] => true
  | s :: rest => if !s.hasReprovCookie then false else hasReprovAllLoop rest

/-- Cluster.HasRequestDBRollingReprov: false on a nil server slice,
otherwise every node must carry the reprovision cookie. -/
def Cluster.HasRequestDBRollingReprov (c : Cluster) : Bool :=
  match c.servers with
  | none => false
  | some l => hasReprovAllLoop l

/-- Scan of ServerMonitor.GetSlaveStatus over the replication records:
first record whose connection name equals the requested name. -/
def slaveStatusLoop (nm : String) : List SlaveStatus → Option SlaveStatus
  | [] => none
  | ss :: rest =>
    if ss.connectionName = nm then some ss else slaveStatusLoop nm rest

/-- ServerMonitor.GetSlaveStatus: the first current record matching the
channel name; none embeds the error return (message in the source:
Empty replications channels), produced both when the record slice is nil
and when no record matches. -/
def ServerMonitor.GetSlaveStatus (server : ServerMonitor) (nm : String) :
    Option SlaveStatus :=
  match server.replications with
  | none => none
  | some l => slaveStatusLoop nm l

/-- ServerMonitor.GetReplicationDelay: zero when the channel lookup fails
or the seconds-behind measurement is not valid, otherwise the stored
value as is. -/
def ServerMonitor.GetReplicationDelay (server : ServerMonitor) : Int :=
  match server.GetSlaveStatus server.replicationSourceName with
  | none => 0
  | some ss =>
    if ss.secondsBehindMaster.valid = false then 0
    else ss.secondsBehindMaster.int64

/-- Scan of ServerMonitor.GetSibling over the cluster servers: first node
whose own channel record carries the same upstream server identifier and
whose server identifier differs from the probed node. -/
def siblingLoop (server : ServerMonitor) (ssserver : SlaveStatus) :
    List ServerMonitor → Option ServerMonitor
  | [] => none
  | sl :: rest =>
    match sl.GetSlaveStatus sl.replicationSourceName with
    | none => siblingLoop server ssserver rest
    | some sssib =>
      if sssib.masterServerID = ssserver.masterServerID ∧
          sl.serverID ≠ server.serverID then some sl
      else siblingLoop server ssserver rest

/-- ServerMonitor.GetSibling: none when the probed node has no resolvable
channel record, otherwise the scan above over the servers of the
owning cluster (passed here as the list the Go method ranges over). -/
def ServerMonitor.GetSibling (server : ServerMonitor)
    (servers : List ServerMonitor) : Option ServerMonitor :=
  match server.GetSlaveStatus server.replicationSourceName with
  | none => none
  | some ssserver => siblingLoop server ssserver servers

/-- Connection security generations (ConstTLSCurrentConfig,
ConstTLSOldConfig, ConstTLSNoConfig). -/
inductive TLSKind
  | current
  | old
  | noConfig
deriving DecidableEq

/-- The per-node connection state GetNewDBConn reads and writes: the
selected security generation (TLSConfigUsed) and the generation the
current DSN string was built from. -/
structure ConnState where
  tlsConfigUsed : TLSKind
  dsn : TLSKind
deriving DecidableEq

/-- Modelled from the spec: SetDSN (not among the given sources) rebuilds
the node connection string from the currently selected security
configuration. -/
def ConnState.setDSN (s : ConnState) : ConnState :=
  { s with dsn := s.tlsConfigUsed }

/-- Result of one GetNewDBConn call: whether the returned connection is
live, which DSN generation it was opened with, the node state after the
call, and the fleet alerts raised. -/
structure ConnResult where
  ok : Bool
  usedDSN : TLSKind
  finalState : ConnState
  alerts : List String
deriving DecidableEq

/-- ServerMonitor.GetNewDBConn.  The outcome of one network connection
attempt is abstracted as the oracle connect, indexed by the generation
the DSN was built from.  isPg embeds the postgres short-circuit
(MasterSlavePgStream or MasterSlavePgLogical); haveDBTLSCert the fleet
TLS flag.  Mirrors the source: current attempt; on failure with TLS,
switch to old and retry, raising ERR00080 on success; on failure again,
switch to noConfig and retry without alert; in both fallback paths the
selected generation and DSN are reset to current before returning. -/
def GetNewDBConn (isPg : Bool) (haveDBTLSCert : Bool)
    (connect : TLSKind → Bool) (server : ConnState) : ConnResult :=
  if isPg = true then
    { ok := connect server.dsn, usedDSN := server.dsn,
      finalState := server, alerts := [] }
  else
    let ok1 := connect server.dsn
    if ok1 = false ∧ haveDBTLSCert = true then
      let s1 := ConnState.setDSN { server with tlsConfigUsed := TLSKind.old }
      let ok2 := connect s1.dsn
      if ok2 = true then
        let s2 := ConnState.setDSN { s1 with tlsConfigUsed := TLSKind.current }
        { ok := true, usedDSN := TLSKind.old,
          finalState := s2, alerts := ["ERR00080"] }
      else
        let s2 := ConnState.setDSN { s1 with tlsConfigUsed := TLSKind.noConfig }
        let ok3 := connect s2.dsn
        let s3 := ConnState.setDSN { s2 with tlsConfigUsed := TLSKind.current }
        { ok := ok3, usedDSN := TLSKind.noConfig,
          finalState := s3, alerts := [] }
    else
      { ok := ok1, usedDSN := server.dsn, finalState := server, alerts := [] }

/-- One database metric consumed by GetPrometheusMetrics. -/
structure Metric where
  mname : String
  value : String
deriving DecidableEq

/-- One rendered exposition line of GetPrometheusMetrics; the dot-split
name components are indexed exactly where the source indexes them, and
none embeds an out-of-bounds slice access (a Go panic). -/
def renderMetricLine (m : Metric) : Option String :=
  let v := goSplit m.mname '.'
  match v.get? 2 with
  | none => none
  | some v2 =>
    if v2 = "pfs" then
      match v.get? 3, v.get? 1 with
      | some v3, some v1 =>
        some (v2 ++ "_" ++ v3 ++ "\x7binstance=\"" ++ v1 ++ "\"\x7d "
          ++ m.value ++ "\n")
      | _, _ => none
    else
      match v.get? 1 with
      | some v1 =>
        some (v2 ++ "\x7binstance=\"" ++ v1 ++ "\"\x7d " ++ m.value ++ "\n")
      | none => none

/-- ServerMonitor.GetPrometheusMetrics over the metric list returned by
GetDatabaseMetrics (passed as an argument); none embeds a panic on the
first metric whose name has too few dot-separated fields. -/
def GetPrometheusMetrics : List Metric → Option String
  | [] => some ""
  | m :: rest =>
    match renderMetricLine m with
    | none => none
    | some line =>
      match GetPrometheusMetrics rest with
      | none => none
      | some s => some (line ++ s)

/-- The bounds precondition of one metric name: at least three
dot-separated fields, and at least four when the third field is pfs. -/
def metricNameOk (m : Metric) : Prop :=
  3 ≤ (goSplit m.mname '.').length ∧
    ((goSplit m.mname '.').get? 2 = some "pfs" →
      4 ≤ (goSplit m.mname '.').length)

instance (m : Metric) : Decidable (metricNameOk m) := by
  unfold metricNameOk
  exact instDecidableAnd

/-- C9: Cluster.IsInCaptureMode returns false for every cluster state:
with at least one server the guard rejects before inspecting any server,
and with none the scan over servers finds no node in capture mode. -/
theorem c9_capture_mode_always_false (c : Cluster) :
    c.IsInCaptureMode = false := by
  unfold Cluster.IsInCaptureMode
  split
  · rfl
  · rename_i hguard
    push_neg at hguard
    have hlen : c.serversRange.length = 0 := by omega
    have hnil : c.serversRange = [] := List.length_eq_zero.mp hlen
    rw [hnil]
    rfl

/-- The server loop of IsProvisioned accepts exactly when every node has
the provision cookie or is running. -/
theorem isProvisionedDbLoop_iff (l : List ServerMonitor) :
    isProvisionedDbLoop l = true ↔
      ∀ db ∈ l, db.hasProvisionCookie = true ∨ db.isRunning = true := by
  induction l with
  | nil => simp [isProvisionedDbLoop]
  | cons db rest ih =>
    simp only [isProvisionedDbLoop, List.mem_cons]
    cases hck : db.hasProvisionCookie <;> cases hrn : db.isRunning <;>
      simp [hck, hrn, ih]

/-- The proxy loop of IsProvisioned accepts exactly when every proxy has
the provision cookie or is running. -/
theorem isProvisionedProxyLoop_iff (l : List Proxy) :
    isProvisionedProxyLoop l = true ↔
      ∀ px ∈ l, px.hasProvisionCookie = true ∨ px.isRunning = true := by
  induction l with
  | nil => simp [isProvisionedProxyLoop]
  | cons px rest ih =>
    simp only [isProvisionedProxyLoop, List.mem_cons]
    cases hck : px.hasProvisionCookie <;> cases hrn : px.isRunning <;>
      simp [hck, hrn, ih]

/-- The loop of HasRequestDBRollingRestart accepts exactly when every node
carries the restart cookie. -/
theorem hasRestartAllLoop_iff (l : List ServerMonitor) :
    hasRestartAllLoop l = true ↔ ∀ s ∈ l, s.hasRestartCookie = true := by
  induction l with
  | nil => simp [hasRestartAllLoop]
  | cons s rest ih =>
    simp only [hasRestartAllLoop, List.mem_cons]
    cases hck : s.hasRestartCookie <;> simp [hck, ih]

/-- The loop of HasRequestDBRollingReprov accepts exactly when every node
carries the reprovision cookie. -/
theorem hasReprovAllLoop_iff (l : List ServerMonitor) :
    hasReprovAllLoop l = true ↔ ∀ s ∈ l, s.hasReprovCookie = true := by
  induction l with
  | nil => simp [hasReprovAllLoop]
  | cons s rest ih =>
    simp only [hasReprovAllLoop, List.mem_cons]
    cases hck : s.hasReprovCookie <;> simp [hck, ih]

/-- The loop of HasRequestDBRestart accepts exactly when some node carries
the restart cookie. -/
theorem hasRestartAnyLoop_iff (l : List ServerMonitor) :
    hasRestartAnyLoop l = true ↔ ∃ s ∈ l, s.hasRestartCookie = true := by
  induction l with
  | nil => simp [hasRestartAnyLoop]
  | cons s rest ih =>
    simp only [hasRestartAnyLoop, List.mem_cons]
    cases hck : s.hasRestartCookie <;> simp [hck, ih]

/-- The record scan returns none exactly when no record matches the
requested channel name. -/
theorem slaveStatusLoop_eq_none_iff (nm : String) (l : List SlaveStatus) :
    slaveStatusLoop nm l = none ↔ ∀ r ∈ l, r.connectionName ≠ nm := by
  induction l with
  | nil => simp [slaveStatusLoop]
  | cons r rest ih =>
    simp only [slaveStatusLoop, List.mem_cons]
    by_cases hnm : r.connectionName = nm <;> simp [hnm, ih]

/-- A record returned by the scan matches the requested channel name and
is one of the scanned records. -/
theorem slaveStatusLoop_eq_some (nm : String) (l : List SlaveStatus)
    (r : SlaveStatus) (h : slaveStatusLoop nm l = some r) :
    r.connectionName = nm ∧ r ∈ l := by
  induction l with
  | nil => simp [slaveStatusLoop] at h
  | cons r0 rest ih =>
    simp only [slaveStatusLoop] at h
    by_cases hnm : r0.connectionName = nm
    · simp [hnm] at h
      subst h
      exact ⟨hnm, List.mem_cons_self r0 rest⟩
    · simp [hnm] at h
      obtain ⟨h1, h2⟩ := ih h
      exact ⟨h1, List.mem_cons_of_mem r0 h2⟩

/-- The ignore-list loop accepts exactly when the node URL or name equals
one of the entries. -/
theorem isInHostsLoop_iff (server : ServerMonitor) (entries : List String) :
    isInHostsLoop server entries = true ↔
      ∃ e ∈ entries, server.url = e ∨ server.name = e := by
  induction entries with
  | nil => simp [isInHostsLoop]
  | cons e rest ih =>
    simp only [isInHostsLoop, List.mem_cons]
    by_cases hm : server.url = e ∨ server.name = e <;> simp [hm, ih]

/-- Concrete cluster refuting C1: orchestrator is not on-premise and the
hosts list is empty. -/
def c1cex : Cluster :=
  { servers := some [], proxies := [],
    conf := { provOrchestrator := "opensvc", hosts := "",
              ignoreSrv := "", monitorCapture := false },
    isNotMonitoring := false }

/-- C1 counterexample: for a cluster whose orchestrator is not on-premise
and whose configured hosts list is the empty string, IsProvisioned
returns false, not true as the claim states. -/
theorem c1_counterexample :
    c1cex.conf.provOrchestrator ≠ ConstOrchestratorOnPremise ∧
    c1cex.conf.hosts = "" ∧ c1cex.IsProvisioned = false := by decide

/-- C1 (amended): IsProvisioned is immediately true when the provisioning
backend is on-premise; when the backend is not on-premise and the hosts
list is the empty string it is immediately false; otherwise it is true
exactly when every node and every proxy has the provision cookie or is
currently running (a running one gets its cookie set during the
evaluation). -/
theorem c1_isProvisioned_amended (c : Cluster) :
    (c.conf.provOrchestrator = ConstOrchestratorOnPremise →
      c.IsProvisioned = true) ∧
    (c.conf.provOrchestrator ≠ ConstOrchestratorOnPremise →
      c.conf.hosts = "" → c.IsProvisioned = false) ∧
    (c.conf.provOrchestrator ≠ ConstOrchestratorOnPremise →
      c.conf.hosts ≠ "" →
      (c.IsProvisioned = true ↔
        (∀ db ∈ c.serversRange,
            db.hasProvisionCookie = true ∨ db.isRunning = true) ∧
        (∀ px ∈ c.proxies,
            px.hasProvisionCookie = true ∨ px.isRunning = true))) := by
  refine ⟨fun h1 => ?_, fun h1 h2 => ?_, fun h1 h2 => ?_⟩
  · simp [Cluster.IsProvisioned, h1]
  · simp [Cluster.IsProvisioned, h1, h2]
  · simp only [Cluster.IsProvisioned, if_neg h1, if_neg h2]
    by_cases hdb : isProvisionedDbLoop c.serversRange = true
    · simp [hdb, isProvisionedProxyLoop_iff]
      exact fun _ => (isProvisionedDbLoop_iff c.serversRange).mp hdb
    · simp only [Bool.not_eq_true] at hdb
      simp [hdb]
      intro hforall
      exact absurd ((isProvisionedDbLoop_iff c.serversRange).mpr hforall)
        (by simp [hdb])

/-- Concrete on-premise cluster for the C1 witness. -/
def c1wit : Cluster :=
  { servers := some [], proxies := [],
    conf := { provOrchestrator := ConstOrchestratorOnPremise, hosts := "",
              ignoreSrv := "", monitorCapture := false },
    isNotMonitoring := false }

/-- C1 witness: the amended theorem applied to a concrete cluster. -/
theorem c1_witness : c1wit.IsProvisioned = true :=
  (c1_isProvisioned_amended c1wit).1 rfl

/-- Concrete cluster refuting C2: the server collection is present but
empty. -/
def c2cex : Cluster :=
  { servers := some [], proxies := [],
    conf := { provOrchestrator := "opensvc", hosts := "db1",
              ignoreSrv := "", monitorCapture := false },
    isNotMonitoring := false }

/-- C2 counterexample: on a cluster whose server collection is present but
empty, HasAllDbUp, HasRequestDBRollingRestart and
HasRequestDBRollingReprov all return true, not false as the claim
states. -/
theorem c2_counterexample :
    c2cex.servers = some [] ∧
    c2cex.HasAllDbUp = true ∧
    c2cex.HasRequestDBRollingRestart = true ∧
    c2cex.HasRequestDBRollingReprov = true := by decide

/-- C2 (amended): the three predicates return false when the server
collection is nil (absent), but return true vacuously when it is
present and empty; only the nil case fails closed. -/
theorem c2_empty_nodes_amended (c : Cluster) :
    (c.servers = none →
      c.HasAllDbUp = false ∧ c.HasRequestDBRollingRestart = false ∧
        c.HasRequestDBRollingReprov = false) ∧
    (c.servers = some [] →
      c.HasAllDbUp = true ∧ c.HasRequestDBRollingRestart = true ∧
        c.HasRequestDBRollingReprov = true) := by
  constructor <;> intro h <;>
    simp [Cluster.HasAllDbUp, Cluster.HasRequestDBRollingRestart,
      Cluster.HasRequestDBRollingReprov, h, hasAllDbUpLoop,
      hasRestartAllLoop, hasReprovAllLoop]

/-- Concrete cluster with a nil server collection for the C2 witness. -/
def c2wit : Cluster :=
  { servers := none, proxies := [],
    conf := { provOrchestrator := "opensvc", hosts := "db1",
              ignoreSrv := "", monitorCapture := false },
    isNotMonitoring := false }

/-- C2 witness: the amended theorem applied to a concrete nil-server
cluster. -/
theorem c2_witness :
    c2wit.HasAllDbUp = false ∧ c2wit.HasRequestDBRollingRestart = false ∧
      c2wit.HasRequestDBRollingReprov = false :=
  (c2_empty_nodes_amended c2wit).1 rfl

/-- Concrete cluster and node refuting the empty-list part of C8: the
ignore list is the empty string and the node URL is empty. -/
def c8cex : Cluster :=
  { servers := some [], proxies := [],
    conf := { provOrchestrator := "opensvc", hosts := "db1",
              ignoreSrv := "", monitorCapture := false },
    isNotMonitoring := false }

/-- Node with an empty URL for the C8 counterexample. -/
def c8srv : ServerMonitor :=
  { url := "", name := "x", state := "Running", serverID := 1,
    replicationSourceName := "", replications := none,
    hasProvisionCookie := false, hasRestartCookie := false,
    hasReprovCookie := false, isRunning := true, inCaptureMode := false }

/-- C8 counterexample: with an empty configured ignore list the predicate
is not false for every node: Go Split of the empty string yields one
empty entry, and a node whose URL is the empty string matches it. -/
theorem c8_counterexample :
    c8cex.conf.ignoreSrv = "" ∧ c8cex.IsInIgnoredHosts c8srv = true := by
  decide

/-- C8 (amended): IsInIgnoredHosts is true exactly when the node URL or
name equals one of the entries produced by comma-splitting the
configured list; an empty configured list splits into one empty entry,
so it matches exactly the nodes whose URL or name is empty and yields no
match for any node with non-empty URL and name. -/
theorem c8_ignored_hosts_amended (c : Cluster) (server : ServerMonitor) :
    (c.IsInIgnoredHosts server = true ↔
      ∃ e ∈ goSplit c.conf.ignoreSrv ',',
        server.url = e ∨ server.name = e) ∧
    (c.conf.ignoreSrv = "" →
      (c.IsInIgnoredHosts server = true ↔
        server.url = "" ∨ server.name = "")) := by
  constructor
  · exact isInHostsLoop_iff server (goSplit c.conf.ignoreSrv ',')
  · intro h
    rw [Cluster.IsInIgnoredHosts, h]
    show isInHostsLoop server [""] = true ↔ _
    simp [isInHostsLoop]

/-- Concrete cluster with the ignore list of the spec scenario for the C8
witness. -/
def c8wit : Cluster :=
  { servers := some [], proxies := [],
    conf := { provOrchestrator := "opensvc", hosts := "db1",
              ignoreSrv := "db3,db4", monitorCapture := false },
    isNotMonitoring := false }

/-- Node db3 of the spec scenario. -/
def c8witSrv : ServerMonitor :=
  { url := "db3", name := "db3", state := "Running", serverID := 1,
    replicationSourceName := "", replications := none,
    hasProvisionCookie := false, hasRestartCookie := false,
    hasReprovCookie := false, isRunning := true, inCaptureMode := false }

/-- C8 witness: the amended theorem applied to the spec scenario, ignore
list db3,db4 and node URL db3. -/
theorem c8_witness : c8wit.IsInIgnoredHosts c8witSrv = true :=
  (c8_ignored_hosts_amended c8wit c8witSrv).1.mpr
    ⟨"db3", by decide, Or.inl rfl⟩

/-- Modelled from the spec: the external orchestrated operation that
consumes a restart request clears the restart cookie of one node; the
classifier itself never clears cookies. -/
def clearRestartCookie (s : ServerMonitor) : ServerMonitor :=
  { s with hasRestartCookie := false }

/-- C4: on a cluster of at least two nodes all carrying the restart
cookie, HasRequestDBRollingRestart is true; on the cluster obtained by
clearing the cookie of exactly one node it becomes false while the
existential HasRequestDBRestart stays true. -/
theorem c4_rolling_vs_existential (c c2 : Cluster) (ss : List ServerMonitor)
    (i : Nat) (hi : i < ss.length)
    (hs : c.servers = some ss) (h2 : 2 ≤ ss.length)
    (hall : ∀ s ∈ ss, s.hasRestartCookie = true)
    (hs2 : c2.servers = some (ss.set i (clearRestartCookie ss[i]))) :
    c.HasRequestDBRollingRestart = true ∧
    c2.HasRequestDBRollingRestart = false ∧
    c2.HasRequestDBRestart = true := by
  have hiL : i < (ss.set i (clearRestartCookie ss[i])).length := by
    rw [List.length_set]
    exact hi
  refine ⟨?_, ?_, ?_⟩
  · unfold Cluster.HasRequestDBRollingRestart
    rw [hs]
    exact (hasRestartAllLoop_iff ss).mpr hall
  · unfold Cluster.HasRequestDBRollingRestart
    rw [hs2]
    show hasRestartAllLoop (ss.set i (clearRestartCookie ss[i])) = false
    rw [Bool.eq_false_iff]
    intro htrue
    have hforall := (hasRestartAllLoop_iff _).mp htrue
    have hat := hforall ((ss.set i (clearRestartCookie ss[i]))[i])
      (List.getElem_mem hiL)
    rw [List.getElem_set_self hiL] at hat
    simp [clearRestartCookie] at hat
  · unfold Cluster.HasRequestDBRestart
    rw [hs2]
    show hasRestartAnyLoop (ss.set i (clearRestartCookie ss[i])) = true
    have hj : (if i = 0 then 1 else 0) < ss.length := by
      by_cases h0 : i = 0 <;> simp [h0] <;> omega
    have hjne : i ≠ (if i = 0 then 1 else 0) := by
      by_cases h0 : i = 0 <;> simp [h0]
    have hjL : (if i = 0 then 1 else 0) <
        (ss.set i (clearRestartCookie ss[i])).length := by
      rw [List.length_set]
      exact hj
    refine (hasRestartAnyLoop_iff _).mpr
      ⟨(ss.set i (clearRestartCookie ss[i]))[if i = 0 then 1 else 0],
        List.getElem_mem hjL, ?_⟩
    rw [List.getElem_set_ne hjne]
    exact hall ss[if i = 0 then 1 else 0] (List.getElem_mem hj)

/-- First node of the concrete C4 witness cluster, restart cookie set. -/
def c4s1 : ServerMonitor :=
  { url := "db1", name := "db1", state := "Running", serverID := 1,
    replicationSourceName := "", replications := none,
    hasProvisionCookie := false, hasRestartCookie := true,
    hasReprovCookie := false, isRunning := true, inCaptureMode := false }

/-- Second node of the concrete C4 witness cluster, restart cookie set. -/
def c4s2 : ServerMonitor :=
  { url := "db2", name := "db2", state := "Running", serverID := 2,
    replicationSourceName := "", replications := none,
    hasProvisionCookie := false, hasRestartCookie := true,
    hasReprovCookie := false, isRunning := true, inCaptureMode := false }

/-- C4 witness cluster with both cookies set. -/
def c4c : Cluster :=
  { servers := some [c4s1, c4s2], proxies := [],
    conf := { provOrchestrator := "opensvc", hosts := "db1,db2",
              ignoreSrv := "", monitorCapture := false },
    isNotMonitoring := false }

/-- C4 witness cluster after clearing the first cookie. -/
def c4c2 : Cluster :=
  { servers := some [clearRestartCookie c4s1, c4s2], proxies := [],
    conf := { provOrchestrator := "opensvc", hosts := "db1,db2",
              ignoreSrv := "", monitorCapture := false },
    isNotMonitoring := false }

/-- C4 witness: the theorem applied to the concrete two-node cluster,
clearing the cookie of the first node. -/
theorem c4_witness :
    c4c.HasRequestDBRollingRestart = true ∧
    c4c2.HasRequestDBRollingRestart = false ∧
    c4c2.HasRequestDBRestart = true :=
  c4_rolling_vs_existential c4c c4c2 [c4s1, c4s2] 0 (by decide) rfl
    (by decide) (by decide) rfl

/-- The current records of a node: the record slice, with a nil slice
holding no records. -/
def ServerMonitor.recordsOf (server : ServerMonitor) : List SlaveStatus :=
  server.replications.getD []

/-- A record returned by GetSlaveStatus matches the requested channel name
and is one of the current records. -/
theorem getSlaveStatus_eq_some (server : ServerMonitor) (nm : String)
    (r : SlaveStatus) (h : server.GetSlaveStatus nm = some r) :
    r.connectionName = nm ∧ r ∈ server.recordsOf := by
  unfold ServerMonitor.GetSlaveStatus at h
  cases hrep : server.replications with
  | none =>
    rw [hrep] at h
    cases h
  | some l =>
    rw [hrep] at h
    have := slaveStatusLoop_eq_some nm l r h
    simpa [ServerMonitor.recordsOf, hrep] using this

/-- C7: GetSlaveStatus returns a record whose channel name equals the
requested name whenever some current record matches it, and returns the
no-replication-channels error (none) exactly when the record slice is
nil or no record matches the name. -/
theorem c7_get_slave_status (server : ServerMonitor) (nm : String) :
    ((∃ r ∈ server.recordsOf, r.connectionName = nm) →
      ∃ r, server.GetSlaveStatus nm = some r ∧ r.connectionName = nm ∧
        r ∈ server.recordsOf) ∧
    (server.GetSlaveStatus nm = none ↔
      ∀ r ∈ server.recordsOf, r.connectionName ≠ nm) := by
  have hnone : server.GetSlaveStatus nm = none ↔
      ∀ r ∈ server.recordsOf, r.connectionName ≠ nm := by
    unfold ServerMonitor.GetSlaveStatus
    cases hrep : server.replications with
    | none => simp [ServerMonitor.recordsOf, hrep]
    | some l => simp [ServerMonitor.recordsOf, hrep, slaveStatusLoop_eq_none_iff]
  refine ⟨fun hex => ?_, hnone⟩
  cases hval : server.GetSlaveStatus nm with
  | none =>
    obtain ⟨r, hr, hrnm⟩ := hex
    exact absurd hrnm (hnone.mp hval r hr)
  | some r =>
    obtain ⟨h1, h2⟩ := getSlaveStatus_eq_some server nm r hval
    exact ⟨r, rfl, h1, h2⟩

/-- Record of the C7 witness node. -/
def c7rec : SlaveStatus :=
  { connectionName := "chan1", masterHost := "m", masterServerID := 7,
    secondsBehindMaster := { valid := true, int64 := 2 } }

/-- Node with one matching record for the C7 witness. -/
def c7srv : ServerMonitor :=
  { url := "db1", name := "db1", state := "Running", serverID := 1,
    replicationSourceName := "chan1",
    replications := some [c7rec],
    hasProvisionCookie := false, hasRestartCookie := false,
    hasReprovCookie := false, isRunning := true, inCaptureMode := false }

/-- C7 witness: the theorem applied to a concrete node whose single record
matches the requested channel name. -/
theorem c7_witness :
    ∃ r, c7srv.GetSlaveStatus "chan1" = some r ∧
      r.connectionName = "chan1" ∧ r ∈ c7srv.recordsOf :=
  (c7_get_slave_status c7srv "chan1").1
    ⟨c7rec, List.mem_cons_self c7rec [], rfl⟩

/-- Node refuting the non-negativity part of C6: its stored measurement is
valid and negative. -/
def c6rec : SlaveStatus :=
  { connectionName := "", masterHost := "m", masterServerID := 7,
    secondsBehindMaster := { valid := true, int64 := -1 } }

/-- C6 counterexample node holding the record above. -/
def c6srv : ServerMonitor :=
  { url := "db1", name := "db1", state := "Running", serverID := 1,
    replicationSourceName := "",
    replications := some [c6rec],
    hasProvisionCookie := false, hasRestartCookie := false,
    hasReprovCookie := false, isRunning := true, inCaptureMode := false }

/-- C6 counterexample: a node whose stored seconds-behind value is valid
and equal to minus one gets exactly that negative value back from
GetReplicationDelay, so the function can return a negative value. -/
theorem c6_counterexample :
    c6srv.GetReplicationDelay = -1 ∧ c6srv.GetReplicationDelay < 0 := by
  decide

/-- C6 (amended): GetReplicationDelay returns zero when the channel lookup
fails or the measurement is not valid, returns the exact stored value
when a valid measurement is present (even a negative one), and is
non-negative provided every valid stored measurement of the node is
non-negative. -/
theorem c6_replication_delay_amended (server : ServerMonitor) :
    (server.GetSlaveStatus server.replicationSourceName = none →
      server.GetReplicationDelay = 0) ∧
    (∀ ss, server.GetSlaveStatus server.replicationSourceName = some ss →
      (ss.secondsBehindMaster.valid = false →
        server.GetReplicationDelay = 0) ∧
      (ss.secondsBehindMaster.valid = true →
        server.GetReplicationDelay = ss.secondsBehindMaster.int64)) ∧
    ((∀ r ∈ server.recordsOf, r.secondsBehindMaster.valid = true →
        0 ≤ r.secondsBehindMaster.int64) →
      0 ≤ server.GetReplicationDelay) := by
  refine ⟨fun h => ?_, fun ss hss => ⟨fun hv => ?_, fun hv => ?_⟩,
    fun hpos => ?_⟩
  · unfold ServerMonitor.GetReplicationDelay
    rw [h]
  · unfold ServerMonitor.GetReplicationDelay
    rw [hss]
    simp [hv]
  · unfold ServerMonitor.GetReplicationDelay
    rw [hss]
    simp [hv]
  · unfold ServerMonitor.GetReplicationDelay
    cases hval : server.GetSlaveStatus server.replicationSourceName with
    | none => simp
    | some ss0 =>
      obtain ⟨_, hmem⟩ :=
        getSlaveStatus_eq_some server server.replicationSourceName ss0 hval
      cases hv : ss0.secondsBehindMaster.valid with
      | false => simp [hv]
      | true =>
        simp only [hv]
        simpa using hpos ss0 hmem hv

/-- Node with no records for the C6 witness. -/
def c6wit : ServerMonitor :=
  { url := "db1", name := "db1", state := "Running", serverID := 1,
    replicationSourceName := "", replications := none,
    hasProvisionCookie := false, hasRestartCookie := false,
    hasReprovCookie := false, isRunning := true, inCaptureMode := false }

/-- C6 witness: the amended theorem applied to a node whose channel lookup
fails, giving the zero default. -/
theorem c6_witness : c6wit.GetReplicationDelay = 0 :=
  (c6_replication_delay_amended c6wit).1 rfl

/-- Connection oracle of the C3 counterexample: the current certificate
configuration fails and the old one succeeds. -/
def c3connect : TLSKind → Bool
  | TLSKind.current => false
  | TLSKind.old => true
  | TLSKind.noConfig => false

/-- Initial node connection state of the C3 counterexample: the current
generation is selected and the DSN was built from it. -/
def c3init : ConnState :=
  { tlsConfigUsed := TLSKind.current, dsn := TLSKind.current }

/-- C3 counterexample: with the current-configuration attempt failing and
the old-configuration retry succeeding, the call returns a live
connection but the persisted security state after the call is Current,
not Old as the claim states. -/
theorem c3_counterexample :
    c3connect TLSKind.current = false ∧ c3connect TLSKind.old = true ∧
    (GetNewDBConn false true c3connect c3init).ok = true ∧
    (GetNewDBConn false true c3connect c3init).finalState.tlsConfigUsed ≠
      TLSKind.old := by decide

/-- C3 (amended): given current-certificate failure and old-certificate
success on the mysql path with fleet TLS enabled, the call returns the
connection opened with the old-configuration DSN and raises the
ERR00080 warning, but the persisted security state and the DSN are
reset to Current before returning, so the next connection attempt
starts again from Current rather than from Old. -/
theorem c3_fallback_amended (connect : TLSKind → Bool) (s : ConnState)
    (hcur : connect s.dsn = false) (hold : connect TLSKind.old = true) :
    (GetNewDBConn false true connect s).ok = true ∧
    (GetNewDBConn false true connect s).usedDSN = TLSKind.old ∧
    (GetNewDBConn false true connect s).alerts = ["ERR00080"] ∧
    (GetNewDBConn false true connect s).finalState.tlsConfigUsed =
      TLSKind.current ∧
    (GetNewDBConn false true connect s).finalState.dsn = TLSKind.current := by
  unfold GetNewDBConn
  simp [ConnState.setDSN, hcur, hold]

/-- C3 witness: the amended theorem applied to the concrete oracle and
initial state. -/
theorem c3_witness :
    (GetNewDBConn false true c3connect c3init).ok = true ∧
    (GetNewDBConn false true c3connect c3init).usedDSN = TLSKind.old ∧
    (GetNewDBConn false true c3connect c3init).alerts = ["ERR00080"] ∧
    (GetNewDBConn false true c3connect c3init).finalState.tlsConfigUsed =
      TLSKind.current ∧
    (GetNewDBConn false true c3connect c3init).finalState.dsn =
      TLSKind.current :=
  c3_fallback_amended c3connect c3init (by decide) (by decide)

/-- In a server list where every node resolving a channel record with the
probed upstream identifier is either the probed node A or the node B,
where the identifier of B differs from that of A and B resolves a
record with that upstream identifier, the sibling scan for A finds B. -/
theorem siblingLoop_finds (A B : ServerMonitor) (sa : SlaveStatus)
    (servers : List ServerMonitor)
    (hidne : A.serverID ≠ B.serverID)
    (hBst : ∃ sb, B.GetSlaveStatus B.replicationSourceName = some sb ∧
      sb.masterServerID = sa.masterServerID)
    (honly : ∀ s ∈ servers, ∀ st,
      s.GetSlaveStatus s.replicationSourceName = some st →
      st.masterServerID = sa.masterServerID → s = A ∨ s = B)
    (hBmem : B ∈ servers) :
    siblingLoop A sa servers = some B := by
  obtain ⟨sb, hsb, hsbm⟩ := hBst
  induction servers with
  | nil => cases hBmem
  | cons s rest ih =>
    have honlyRest : ∀ s2 ∈ rest, ∀ st,
        s2.GetSlaveStatus s2.replicationSourceName = some st →
        st.masterServerID = sa.masterServerID → s2 = A ∨ s2 = B :=
      fun s2 hs2 => honly s2 (List.mem_cons_of_mem s hs2)
    simp only [siblingLoop]
    cases hst : s.GetSlaveStatus s.replicationSourceName with
    | none =>
      have hsne : s ≠ B := by
        intro he
        rw [he, hsb] at hst
        cases hst
      have hBrest : B ∈ rest := by
        cases List.mem_cons.mp hBmem with
        | inl h => exact absurd h.symm hsne
        | inr h => exact h
      exact ih honlyRest hBrest
    | some st =>
      by_cases hcond : st.masterServerID = sa.masterServerID ∧
          s.serverID ≠ A.serverID
      · show (if st.masterServerID = sa.masterServerID ∧
            s.serverID ≠ A.serverID then some s
          else siblingLoop A sa rest) = some B
        rw [if_pos hcond]
        cases honly s (List.mem_cons_self s rest) st hst hcond.1 with
        | inl hA => exact absurd hA.symm (by intro he; exact hcond.2 (by rw [he]))
        | inr hB => rw [hB]
      · show (if st.masterServerID = sa.masterServerID ∧
            s.serverID ≠ A.serverID then some s
          else siblingLoop A sa rest) = some B
        rw [if_neg hcond]
        have hsne : s ≠ B := by
          intro he
          rw [he, hsb] at hst
          injection hst with hst
          subst hst
          exact hcond ⟨hsbm, by rw [he]; exact fun hh => hidne hh.symm⟩
        have hBrest : B ∈ rest := by
          cases List.mem_cons.mp hBmem with
          | inl h => exact absurd h.symm hsne
          | inr h => exact h
        exact ih honlyRest hBrest

/-- C5 (amended): sibling resolution is symmetric when the two nodes carry
distinct server identifiers and are the only nodes of the cluster whose
own channel record carries the shared upstream identifier: GetSibling
of A resolves to B and GetSibling of B resolves to A.  (With a third
matching node, or a duplicate server identifier, the first-match scan
can break symmetry.) -/
theorem c5_sibling_symmetric_amended (servers : List ServerMonitor)
    (A B : ServerMonitor) (sa sb : SlaveStatus)
    (hAmem : A ∈ servers) (hBmem : B ∈ servers)
    (hsa : A.GetSlaveStatus A.replicationSourceName = some sa)
    (hsb : B.GetSlaveStatus B.replicationSourceName = some sb)
    (hm : sa.masterServerID = sb.masterServerID)
    (hid : A.serverID ≠ B.serverID)
    (honly : ∀ s ∈ servers, ∀ st,
      s.GetSlaveStatus s.replicationSourceName = some st →
      st.masterServerID = sa.masterServerID → s = A ∨ s = B) :
    A.GetSibling servers = some B ∧ B.GetSibling servers = some A := by
  constructor
  · unfold ServerMonitor.GetSibling
    rw [hsa]
    exact siblingLoop_finds A B sa servers hid ⟨sb, hsb, hm.symm⟩ honly hBmem
  · unfold ServerMonitor.GetSibling
    rw [hsb]
    refine siblingLoop_finds B A sb servers (fun h => hid h.symm)
      ⟨sa, hsa, hm⟩ ?_ hAmem
    intro s hs st hst hstm
    cases honly s hs st hst (by rw [hstm, hm]) with
    | inl h => exact Or.inr h
    | inr h => exact Or.inl h

/-- Shared channel record of the nodes in the C5 example clusters. -/
def c5rec : SlaveStatus :=
  { connectionName := "", masterHost := "m", masterServerID := 7,
    secondsBehindMaster := { valid := false, int64 := 0 } }

/-- Builder of the C5 example nodes: a node with its own URL and server
identifier, all replicating upstream identifier seven. -/
def c5mk (u : String) (sid : Nat) : ServerMonitor :=
  { url := u, name := u, state := "Running", serverID := sid,
    replicationSourceName := "", replications := some [c5rec],
    hasProvisionCookie := false, hasRestartCookie := false,
    hasReprovCookie := false, isRunning := true, inCaptureMode := false }

/-- Node A of the C5 counterexample. -/
def c5A : ServerMonitor := c5mk "a" 3

/-- Node B of the C5 counterexample. -/
def c5B : ServerMonitor := c5mk "b" 1

/-- Node Z of the C5 counterexample: a third replica of the same
upstream. -/
def c5Z : ServerMonitor := c5mk "z" 2

/-- C5 counterexample: in the cluster B, Z, A, where all three distinct
nodes report upstream identifier seven, GetSibling of A resolves to B,
yet GetSibling of B resolves to the first-in-order match Z, not to A:
sibling resolution is not symmetric as claimed. -/
theorem c5_counterexample :
    c5A ≠ c5B ∧
    (c5A.GetSlaveStatus c5A.replicationSourceName).map
      SlaveStatus.masterServerID = some 7 ∧
    (c5B.GetSlaveStatus c5B.replicationSourceName).map
      SlaveStatus.masterServerID = some 7 ∧
    c5A.GetSibling [c5B, c5Z, c5A] = some c5B ∧
    c5B.GetSibling [c5B, c5Z, c5A] = some c5Z ∧
    c5B.GetSibling [c5B, c5Z, c5A] ≠ some c5A := by decide

/-- C5 witness: the amended theorem applied to a concrete two-node
cluster, both nodes reporting upstream identifier seven. -/
theorem c5_witness :
    c5A.GetSibling [c5A, c5B] = some c5B ∧
    c5B.GetSibling [c5A, c5B] = some c5A :=
  c5_sibling_symmetric_amended [c5A, c5B] c5A c5B c5rec c5rec
    (List.mem_cons_self c5A [c5B])
    (List.mem_cons_of_mem c5A (List.mem_cons_self c5B []))
    rfl rfl rfl (by decide)
    (by
      intro s hs st hst hstm
      simpa using List.mem_cons.mp hs)

/-- One metric renders to a line exactly when its name satisfies the
bounds precondition. -/
theorem renderMetricLine_isSome_iff (m : Metric) :
    (renderMetricLine m).isSome = true ↔ metricNameOk m := by
  simp only [renderMetricLine, metricNameOk]
  cases h2 : (goSplit m.mname '.').get? 2 with
  | none =>
    have hlen := List.get?_eq_none.mp h2
    simp [h2]
    omega
  | some v2 =>
    obtain ⟨hl2, -⟩ := List.get?_eq_some.mp h2
    have h1 : ∃ v1, (goSplit m.mname '.').get? 1 = some v1 := by
      cases hx : (goSplit m.mname '.').get? 1 with
      | none =>
        have := List.get?_eq_none.mp hx
        omega
      | some v1 => exact ⟨v1, rfl⟩
    obtain ⟨v1, h1⟩ := h1
    have h1e : (goSplit m.mname '.')[1]? = some v1 := by
      rw [← List.get?_eq_getElem?]
      exact h1
    by_cases hpfs : v2 = "pfs"
    · subst hpfs
      cases h3 : (goSplit m.mname '.').get? 3 with
      | none =>
        have hlen3 := List.get?_eq_none.mp h3
        simp [h2, h3, h1e]
        omega
      | some v3 =>
        obtain ⟨hl3, -⟩ := List.get?_eq_some.mp h3
        simp [h2, h3, h1e]
        omega
    · simp [h2, h1e, hpfs]
      omega

/-- C10: GetPrometheusMetrics renders a string (stays in bounds) exactly
when every metric name has at least three dot-separated fields, and at
least four when the third field is pfs; any metric violating this
precondition makes the embedded component access out of bounds. -/
theorem c10_metrics_bounds (metrics : List Metric) :
    (GetPrometheusMetrics metrics).isSome = true ↔
      ∀ m ∈ metrics, metricNameOk m := by
  induction metrics with
  | nil => simp [GetPrometheusMetrics]
  | cons m rest ih =>
    have hcons : (GetPrometheusMetrics (m :: rest)).isSome =
        ((renderMetricLine m).isSome && (GetPrometheusMetrics rest).isSome) := by
      simp only [GetPrometheusMetrics]
      cases renderMetricLine m <;> cases GetPrometheusMetrics rest <;> rfl
    rw [hcons]
    simp only [Bool.and_eq_true, ih, renderMetricLine_isSome_iff,
      List.forall_mem_cons]

/-- C10 witness: the equivalence applied to a concrete well-formed metric
list, giving a rendered exposition string. -/
theorem c10_witness :
    (GetPrometheusMetrics
      [{ mname := "server.db1.status", value := "1" },
       { mname := "server.db1.pfs.queries", value := "2" }]).isSome = true :=
  (c10_metrics_bounds
    [{ mname := "server.db1.status", value := "1" },
     { mname := "server.db1.pfs.queries", value := "2" }]).mpr (by decide)
